import Mathlib

/-!
Shallow embedding of the weather-app server core (src/server/server.py):
the frame codec used by `MessagingHandler.SendMessage` and
`MessagingHandler.ListenForRequests`, the listener-loop dispatch,
`ServerProgram.ProcessRequest` / `ProcessRequestQueue` / `OpenServer` / `End`,
and `ServerProgram.SplitOnce`.

Python `bytes` and `str` values are modelled as lists of characters
(`FORMAT = 'utf-8'`; decoding a `bytes` value to `str` is modelled as the
identity on the character list).  Machine-level concerns (socket buffers,
thread scheduling) are modelled by explicit parameters describing what the
socket delivers or what a `send` call reports.
-/

namespace WeatherServer

/-- Python bytes / str, modelled as a list of characters. -/
abbrev Bytes := List Char

/-- server.py line 22: `HEADER_LENGTH = 64`. -/
def HEADER_LENGTH : Nat := 64

/-- Decimal digit character, as produced by Python `str()` on a natural number. -/
def digitChar : Nat → Char
  | 0 => '0' | 1 => '1' | 2 => '2' | 3 => '3' | 4 => '4'
  | 5 => '5' | 6 => '6' | 7 => '7' | 8 => '8' | 9 => '9'
  | _ => '?'

/-- Decimal digits of `n`, least significant first, by repeated division; the
first argument is fuel so that the recursion is structural and the kernel can
evaluate it.  `digitsRevFuel_eq_digits` shows it agrees with `Nat.digits 10`
when the fuel suffices. -/
def digitsRevFuel : Nat → Nat → List Nat
  | 0, _ => []
  | fuel + 1, n => if n = 0 then [] else n % 10 :: digitsRevFuel fuel (n / 10)

/-- Decimal digits of `n`, least significant first. -/
def pyDigits (n : Nat) : List Nat := digitsRevFuel n n

/-- Python `str(n)` for a natural number `n`: its decimal digits, most
significant first (`pyDigits` lists least significant first, hence the
reverse), with `str(0) = "0"`. -/
def natStr (n : Nat) : Bytes :=
  if n = 0 then ['0'] else ((pyDigits n).map digitChar).reverse

/-- server.py lines 145-155 (`MessagingHandler.SendMessage`): the bytes put on
the wire when both `send` calls succeed — `str(len(message))` encoded, padded
on the right with spaces up to `HEADER_LENGTH`, followed by the message. -/
def writeFrame (message : Bytes) : Bytes :=
  let header := natStr message.length
  let padded := header ++ List.replicate (HEADER_LENGTH - header.length) ' '
  padded ++ message

/-- ASCII decimal digit test ('0'..'9'). -/
def isAsciiDigit (c : Char) : Bool := decide (48 ≤ c.toNat ∧ c.toNat ≤ 57)

/-- Numeric value of an ASCII digit character. -/
def digitVal (c : Char) : Nat := c.toNat - 48

/-- Python `str.strip()` restricted to spaces, which is all the codec emits:
drop leading and trailing space characters. -/
def stripSpaces (s : Bytes) : Bytes :=
  ((s.dropWhile (fun c => c == ' ')).reverse.dropWhile (fun c => c == ' ')).reverse

/-- Python `int(s)` on the decoded header: strip surrounding whitespace; a
non-empty all-digit remainder parses as a decimal number, anything else raises
`ValueError` (modelled as `none`). -/
def pyInt? (s : Bytes) : Option Nat :=
  let t := stripSpaces s
  if t ≠ [] ∧ t.all isAsciiDigit then
    some (Nat.ofDigits 10 ((t.map digitVal).reverse))
  else none

/-- server.py lines 186-201 (`MessagingHandler.ListenForRequests`, one
iteration of the receive phase), acting on the byte stream delivered by the
socket.  `none` means this iteration completes with `message` still `None`
(empty peek, header that fails `int()`, or a declared length that the stream
can never satisfy — the inner `recv` loop then never completes); `some`
returns the fully received message and the unconsumed remainder. -/
def readFrame (stream : Bytes) : Option (Bytes × Bytes) :=
  match stream with
  | [] => none
  | _ =>
    match pyInt? (stream.take HEADER_LENGTH) with
    | none => none
    | some length =>
      let rest := stream.drop HEADER_LENGTH
      if length ≤ rest.length then some (rest.take length, rest.drop length)
      else none

/-- The literal `b'DISCONNECT'`. -/
def bDISCONNECT : Bytes := "DISCONNECT".data

/-- The literal `b'CONFIRM DISCONNECTION'`. -/
def bCONFIRM : Bytes := "CONFIRM DISCONNECTION".data

/-- The literal `b'INVALID'`. -/
def bINVALID : Bytes := "INVALID".data

/-- The literal `b'SUCCEEDED'`. -/
def bSUCCEEDED : Bytes := "SUCCEEDED".data

/-- The literal `b'FAILED'`. -/
def bFAILED : Bytes := "FAILED".data

/-- The literal `b'LOGIN'`. -/
def bLOGIN : Bytes := "LOGIN".data

/-- The literal `b'REGISTER'`. -/
def bREGISTER : Bytes := "REGISTER".data

/-- What one iteration of the listener loop does after the receive phase:
which entries it puts on the request queue, and whether it breaks out of the
loop. -/
structure IterResult where
  enqueued : List (Nat × Bytes)
  breaks : Bool
deriving DecidableEq

/-- server.py lines 213-231: the dispatch of a received message.  `if message:`
makes the empty message fall through silently; `CONFIRM DISCONNECTION` with the
server disconnection event set breaks without enqueueing; `DISCONNECT` is
enqueued and breaks; anything else is enqueued and the loop continues. -/
def dispatchMessage (eventSet : Bool) (id : Nat) (msg : Bytes) : IterResult :=
  if msg = [] then ⟨[], false⟩
  else if eventSet = true ∧ msg = bCONFIRM then ⟨[], true⟩
  else if msg = bDISCONNECT then ⟨[(id, msg)], true⟩
  else ⟨[(id, msg)], false⟩

/-- What the socket delivers during one iteration of the listener loop:
end-of-stream (peek returns `b''`), a `ConnectionResetError`, any other
exception, or a complete message. -/
inductive RecvEvent
  | eof
  | resetErr
  | otherErr
  | frame (payload : Bytes)
deriving DecidableEq

/-- server.py lines 185-232: one full iteration of `ListenForRequests`.
`except ConnectionResetError` enqueues `(id, b'DISCONNECT')` and breaks;
`except Exception` only logs, leaves `message` as `None` and continues; an
empty peek skips the receive phase entirely and continues; a received message
goes through `dispatchMessage`. -/
def listenIteration (eventSet : Bool) (id : Nat) (ev : RecvEvent) : IterResult :=
  match ev with
  | .eof => ⟨[], false⟩
  | .resetErr => ⟨[(id, bDISCONNECT)], true⟩
  | .otherErr => ⟨[], false⟩
  | .frame msg => dispatchMessage eventSet id msg

/-- The handler object of `MessagingHandler`: the per-session state touched by
`ProcessRequest` (`logged_in`, set by `SetLoggedIn` together with
`username`). -/
structure Handler where
  logged_in : Bool
  username : Option Bytes
deriving DecidableEq

/-- One occupied Client Registry slot: the Python tuple
`(handlerThread, handler)` stored in `self.clients[i]` (server.py line 417).
`threadAlive` is what `handlerThread.is_alive()` reports; joining the thread
makes it `false`. -/
structure ClientPair where
  threadAlive : Bool
  handler : Handler
deriving DecidableEq

/-- A registry slot: `(None, None)` for an empty slot, or the pair. -/
abbrev Slot := Option ClientPair

/-- Python exceptions that the embedded code can raise. -/
inductive PyExc
  | attributeError
  | indexError
  | assertionError
  | otherError
deriving DecidableEq

/-- Modelled from the spec: `user_data_handler.py` is not in the repository
snapshot; §6 of the spec gives the credential store interface
`VerifyUser(username, password) -> {VALID, NO_USERNAME, WRONG_PASSWORD}`. -/
inductive LoginState
  | VALID
  | NO_USERNAME
  | WRONG_PASSWORD
deriving DecidableEq

/-- Modelled from the spec: `user_data_handler.py` is not in the repository
snapshot; §6 of the spec gives
`RegisterUser(username, password) -> {VALID, DUPLICATE}`. -/
inductive RegisterState
  | VALID
  | DUPLICATE
deriving DecidableEq

/-- server.py lines 552-568, `ServerProgram.SplitOnce` helper:
`request.split(b' ', 1)` — split at the first space, if any. -/
def splitOnceAux : Bytes → Option (Bytes × Bytes)
  | [] => none
  | c :: cs =>
    if c = ' ' then some ([], cs)
    else
      match splitOnceAux cs with
      | some (a, b) => some (c :: a, b)
      | none => none

/-- server.py lines 552-568, `ServerProgram.SplitOnce`: returns
`(head, tail)` split at the first space; with no space present it returns
`(None, None)` when `errorOnNoTrail` and `(request, None)` otherwise. -/
def SplitOnce (request : Bytes) (errorOnNoTrail : Bool) : Option Bytes × Option Bytes :=
  match splitOnceAux request with
  | some (a, b) => (some a, some b)
  | none => if errorOnNoTrail then (none, none) else (some request, none)

/-- server.py line 550: `return status + b' ' + reply if reply else status` —
the conditional expression binds the whole sum, and `reply` is falsy when it
is `None` or `b''`. -/
def assembleReply (status : Bytes) (reply : Option Bytes) : Bytes :=
  match reply with
  | some r => if r = [] then status else status ++ ' ' :: r
  | none => status

/-- Python truthiness of an optional bytes value (`None` and `b''` falsy). -/
def truthy : Option Bytes → Bool
  | none => false
  | some b => !b.isEmpty

/-- server.py lines 449-550, `ServerProgram.ProcessRequest`, over the Client
Registry list and the credential collaborator.  Returns the updated registry
and the reply bytes, or the Python exception the code raises.

Two lines of the source access attributes on the registry tuple
`self.clients[id] = (thread, handler)` instead of on `handler`:

* line 485 `self.clients[id].SetLoggedIn(username)` — a tuple has no
  attribute `SetLoggedIn`, so a `VALID` login raises `AttributeError`
  (elsewhere, e.g. lines 436-438, the code correctly writes
  `self.clients[id][0]` / `self.clients[id][1]`);
* line 503 `if self.clients[id].logged_in:` — same `AttributeError`, raised
  before the test, so every branch below it (the whole `WEATHER` block, whose
  guard on line 504 also compares the bytes `cmd` with the *str* literal
  `'WEATHER'`, and the `FAILED NOT LOGGED IN` else-branch on lines 545-547)
  is unreachable.

Indexing `self.clients[id]` itself raises `IndexError` when `id` is out of
range, and in the `DISCONNECT` branch (line 474) `self.clients[id][0]` is
`None` for an empty slot, so `None.join()` raises `AttributeError`. -/
def ProcessRequest (clients : List Slot)
    (verify : Option Bytes → Option Bytes → LoginState)
    (register : Option Bytes → Option Bytes → RegisterState)
    (id : Nat) (request : Bytes) :
    Except PyExc (List Slot × Bytes) :=
  if request = bDISCONNECT then
    match clients[id]? with
    | none => .error .indexError
    | some none => .error .attributeError
    | some (some pair) =>
      .ok (clients.set id (some { pair with threadAlive := false }),
           assembleReply bINVALID none)
  else
    match SplitOnce request true with
    | (some cmd, some param) =>
      if cmd = [] ∨ param = [] then .ok (clients, assembleReply bINVALID none)
      else if cmd = bLOGIN then
        let up := SplitOnce param true
        match verify up.1 up.2 with
        | .VALID =>
          match clients[id]? with
          | none => .error .indexError
          | some _ => .error .attributeError
        | .NO_USERNAME =>
          .ok (clients, assembleReply bFAILED (some "USERNAME NOT FOUND".data))
        | .WRONG_PASSWORD =>
          .ok (clients, assembleReply bFAILED (some "WRONG PASSWORD".data))
      else if cmd = bREGISTER then
        let up := SplitOnce param true
        match register up.1 up.2 with
        | .VALID => .ok (clients, assembleReply bSUCCEEDED none)
        | .DUPLICATE =>
          .ok (clients, assembleReply bFAILED (some "USERNAME ALREADY EXISTS".data))
      else
        match clients[id]? with
        | none => .error .indexError
        | some _ => .error .attributeError
    | _ => .ok (clients, assembleReply bINVALID none)

/-- server.py lines 432-441, `ServerProgram.ProcessRequestQueue`, handling one
dequeued entry `(id, request)`: run `ProcessRequest`, then either send the
reply through the session's handler (when its listener thread is alive) or
clear the registry slot without sending.  Returns the updated registry and the
list of `(id, reply)` messages sent. -/
def processQueueStep (clients : List Slot)
    (verify : Option Bytes → Option Bytes → LoginState)
    (register : Option Bytes → Option Bytes → RegisterState)
    (id : Nat) (request : Bytes) :
    Except PyExc (List Slot × List (Nat × Bytes)) :=
  match ProcessRequest clients verify register id request with
  | .error e => .error e
  | .ok (clients1, reply) =>
    match clients1[id]? with
    | none => .error .indexError
    | some none => .error .attributeError
    | some (some pair) =>
      if pair.threadAlive then .ok (clients1, [(id, reply)])
      else .ok (clients1.set id none, [])

/-- Outcome of one `accept()` call as seen by `OpenServer`: either the call
raises (listening socket closed by the shutdown path) or it returns a new
connection. -/
inductive AcceptResult
  | closedErr
  | conn
deriving DecidableEq

/-- The scan of server.py lines 411-418: index of the first `(None, None)`
slot, if any. -/
def findFreeSlot : List Slot → Option Nat
  | [] => none
  | none :: _ => some 0
  | some _ :: rest => (findFreeSlot rest).map (· + 1)

/-- What one pass of the `OpenServer` accept loop does. -/
inductive AcceptorOutcome
  | exitBeforeAccept
  | exitOnAcceptError
  | registered (clients : List Slot) (slot : Nat)
  | leaked
deriving DecidableEq

/-- server.py lines 404-423, `ServerProgram.OpenServer`, one pass of the
accept loop: the loop condition `while self.clients.count((None, None)) > 0`
is checked first — with no empty slot the loop (and the acceptor thread)
terminates before `accept()` is ever called.  Otherwise `accept()` either
raises (socket closed: `break`) or yields a connection, which is stored in
the first empty slot with a freshly started listener thread; if the scan finds
no empty slot the loop body does nothing with the accepted connection
(neither stores nor closes it). -/
def acceptorStep (clients : List Slot) (acc : AcceptResult) : AcceptorOutcome :=
  if clients.count none = 0 then .exitBeforeAccept
  else
    match acc with
    | .closedErr => .exitOnAcceptError
    | .conn =>
      match findFreeSlot clients with
      | some i => .registered (clients.set i (some ⟨true, ⟨false, none⟩⟩)) i
      | none => .leaked

/-- The parts of `ServerProgram` state that the shutdown path touches. -/
structure ServerProgramState where
  clients : List Slot
  serverDisconnectionEvent : Bool
  serverSocketOpen : Bool
  connectionThreadAlive : Bool
  processThreadAlive : Bool
deriving DecidableEq

/-- server.py lines 338-356, `ServerProgram.End`: set the disconnection event,
close the listening socket, send `b'DISCONNECT'` to every occupied slot and
join its listener thread, then join the acceptor and processor threads.  The
joins are modelled by marking the corresponding threads dead (the listener
breaks on the client's `CONFIRM DISCONNECTION` with the event set, the
acceptor's `accept()` raises once the socket is closed, and the processor's
loop exits once the queue is empty with the event set).  Note that the loop
only reads `self.clients`; no slot is ever cleared. -/
def End (s : ServerProgramState) : ServerProgramState :=
  { clients := s.clients.map (Option.map fun p => { p with threadAlive := false }),
    serverDisconnectionEvent := true,
    serverSocketOpen := false,
    connectionThreadAlive := false,
    processThreadAlive := false }

/-- What one `socket.send` call reports to `SendMessage`: an exception, or the
number of bytes actually transferred. -/
inductive SendOutcome
  | raises
  | sent (n : Nat)
deriving DecidableEq

/-- server.py lines 142-158: the body of the `try` block in
`MessagingHandler.SendMessage` — build the header, send it, assert
`bytes_sent == HEADER_LENGTH`, send the message, assert
`bytes_sent == length`, return `True`.  A failed assert raises
`AssertionError`, a failed send raises a socket error. -/
def sendBody (message : Bytes) (s1 s2 : SendOutcome) : Except PyExc Bool :=
  match s1 with
  | .raises => .error .otherError
  | .sent n1 =>
    if n1 = HEADER_LENGTH then
      match s2 with
      | .raises => .error .otherError
      | .sent n2 =>
        if n2 = message.length then .ok true else .error .assertionError
    else .error .assertionError

/-- server.py lines 130-164, `MessagingHandler.SendMessage`: the `try` body
wrapped in `except AssertionError` / `except Exception` handlers that log and
fall through to `return False` — no exception ever escapes to the caller. -/
def SendMessage (message : Bytes) (s1 s2 : SendOutcome) : Bool :=
  match sendBody message s1 s2 with
  | .ok b => b
  | .error _ => false

theorem digitsRevFuel_eq_digits :
    ∀ fuel n, n ≤ fuel → digitsRevFuel fuel n = Nat.digits 10 n := by
  intro fuel
  induction fuel with
  | zero =>
    intro n hn
    interval_cases n
    simp [digitsRevFuel]
  | succ f ih =>
    intro n hn
    by_cases h0 : n = 0
    · simp [digitsRevFuel, h0]
    · rw [digitsRevFuel, if_neg h0,
        Nat.digits_def' (by norm_num : (1:ℕ) < 10) (Nat.pos_of_ne_zero h0), ih]
      have : n / 10 < n := Nat.div_lt_self (Nat.pos_of_ne_zero h0) (by norm_num)
      omega

theorem pyDigits_eq_digits (n : Nat) : pyDigits n = Nat.digits 10 n :=
  digitsRevFuel_eq_digits n n le_rfl

theorem natStr_eq_digits (n : Nat) (h : n ≠ 0) :
    natStr n = ((Nat.digits 10 n).map digitChar).reverse := by
  simp [natStr, h, pyDigits_eq_digits]

theorem natStr_ne_nil (n : Nat) : natStr n ≠ [] := by
  by_cases h : n = 0
  · simp [natStr, h]
  · rw [natStr_eq_digits n h]
    simp [Nat.digits_ne_nil_iff_ne_zero.mpr h]

theorem digitChar_spec {d : Nat} (h : d < 10) :
    isAsciiDigit (digitChar d) = true ∧ (digitChar d == ' ') = false ∧
      digitVal (digitChar d) = d := by
  interval_cases d <;> exact ⟨by decide, by decide, by decide⟩

theorem mem_natStr_props {c : Char} {n : Nat} (hc : c ∈ natStr n) :
    isAsciiDigit c = true ∧ (c == ' ') = false := by
  by_cases h : n = 0
  · rw [h] at hc
    simp [natStr] at hc
    rw [hc]
    exact ⟨by decide, by decide⟩
  · rw [natStr_eq_digits n h, List.mem_reverse, List.mem_map] at hc
    obtain ⟨d, hd, rfl⟩ := hc
    have hlt : d < 10 := Nat.digits_lt_base (by norm_num) hd
    exact ⟨(digitChar_spec hlt).1, (digitChar_spec hlt).2.1⟩

theorem dropWhile_space_replicate (k : Nat) (l : Bytes) :
    List.dropWhile (fun c => c == ' ') (List.replicate k ' ' ++ l) =
      List.dropWhile (fun c => c == ' ') l := by
  induction k with
  | zero => simp
  | succ k ih => simp [List.replicate_succ, List.dropWhile_cons, ih]

theorem stripSpaces_natStr (n k : Nat) :
    stripSpaces (natStr n ++ List.replicate k ' ') = natStr n := by
  obtain ⟨c, t, hct⟩ := List.exists_cons_of_ne_nil (natStr_ne_nil n)
  have hc : c ∈ natStr n := by rw [hct]; exact List.mem_cons_self c t
  have hfront :
      List.dropWhile (fun c => c == ' ') (natStr n ++ List.replicate k ' ') =
        natStr n ++ List.replicate k ' ' := by
    rw [hct, List.cons_append]
    simp [List.dropWhile_cons, (mem_natStr_props hc).2]
  have hrevne : (natStr n).reverse ≠ [] := by
    simpa using natStr_ne_nil n
  obtain ⟨c', t', hct'⟩ := List.exists_cons_of_ne_nil hrevne
  have hc' : c' ∈ natStr n := by
    rw [← List.mem_reverse, hct']
    exact List.mem_cons_self c' t'
  have hback :
      List.dropWhile (fun c => c == ' ') ((natStr n ++ List.replicate k ' ').reverse) =
        (natStr n).reverse := by
    rw [List.reverse_append, List.reverse_replicate, dropWhile_space_replicate, hct']
    simp [List.dropWhile_cons, (mem_natStr_props hc').2]
  unfold stripSpaces
  rw [hfront, hback, List.reverse_reverse]

theorem pyInt?_natStr (n k : Nat) :
    pyInt? (natStr n ++ List.replicate k ' ') = some n := by
  unfold pyInt?
  rw [stripSpaces_natStr]
  have hall : (natStr n).all isAsciiDigit = true := by
    rw [List.all_eq_true]
    intro c hc
    exact (mem_natStr_props hc).1
  rw [if_pos ⟨natStr_ne_nil n, hall⟩]
  congr 1
  by_cases h : n = 0
  · subst h; decide
  · rw [natStr_eq_digits n h, List.map_reverse, List.reverse_reverse, List.map_map]
    have hmap : ((Nat.digits 10 n).map (digitVal ∘ digitChar)) = Nat.digits 10 n := by
      calc ((Nat.digits 10 n).map (digitVal ∘ digitChar))
          = (Nat.digits 10 n).map id :=
            List.map_congr_left fun d hd =>
              (digitChar_spec (Nat.digits_lt_base (by norm_num) hd)).2.2
        _ = Nat.digits 10 n := List.map_id _
    rw [hmap, Nat.ofDigits_digits]

theorem natStr_length_le {n : Nat} (h : n < 10 ^ HEADER_LENGTH) :
    (natStr n).length ≤ HEADER_LENGTH := by
  by_cases h0 : n = 0
  · simp [natStr, h0, HEADER_LENGTH]
  · rw [natStr_eq_digits n h0]
    simp only [List.length_reverse, List.length_map]
    by_contra hlt
    push_neg at hlt
    have h1 : 10 ^ (Nat.digits 10 n).length ≤ 10 * n :=
      Nat.base_pow_length_digits_le 10 n (by norm_num) h0
    have h2' : 10 ^ (HEADER_LENGTH + 1) ≤ 10 ^ (Nat.digits 10 n).length :=
      Nat.pow_le_pow_right (by norm_num) (by omega)
    have h3 : 10 ^ (HEADER_LENGTH + 1) ≤ 10 * n := le_trans h2' h1
    rw [pow_succ, mul_comm (10 ^ HEADER_LENGTH) 10] at h3
    exact absurd (Nat.le_of_mul_le_mul_left h3 (by norm_num)) (not_le.mpr h)

theorem readFrame_of_ne_nil (s : Bytes) (hs : s ≠ []) :
    readFrame s =
      match pyInt? (s.take HEADER_LENGTH) with
      | none => none
      | some length =>
        if length ≤ (s.drop HEADER_LENGTH).length then
          some ((s.drop HEADER_LENGTH).take length, (s.drop HEADER_LENGTH).drop length)
        else none := by
  cases s with
  | nil => exact absurd rfl hs
  | cons c t => rfl

theorem findFreeSlot_set_none :
    ∀ (l : List Slot) (id : Nat), id < l.length →
      ∃ i, findFreeSlot (l.set id none) = some i := by
  intro l
  induction l with
  | nil => intro id h; simp at h
  | cons a t ih =>
    intro id h
    cases id with
    | zero => exact ⟨0, rfl⟩
    | succ id =>
      cases a with
      | none => exact ⟨0, rfl⟩
      | some p =>
        obtain ⟨i, hi⟩ := ih id (by simpa using h)
        exact ⟨i + 1, by simp [List.set_cons_succ, findFreeSlot, hi]⟩

theorem splitOnceAux_eq_none (l : Bytes) (h : ' ' ∉ l) : splitOnceAux l = none := by
  induction l with
  | nil => rfl
  | cons c cs ih =>
    rw [splitOnceAux, if_neg (by intro hc; exact h (hc ▸ List.mem_cons_self c cs)),
      ih fun hm => h (List.mem_cons_of_mem c hm)]

/-- Claim C1, corrected form.  For every non-empty payload whose length fits
the `HEADER_LENGTH`-byte decimal header, writing it with the frame codec and
reading the resulting stream back with the listener's frame-reading procedure
reproduces exactly that payload (leaving any following bytes unconsumed), and
the listener hands it to the consumer as one complete message (enqueues
exactly `(id, payload)`).  The original claim also asserted this for the empty
payload; `frame_roundtrip_empty_counterexample` shows the empty message is
read back but never handed to the consumer. -/
theorem frame_roundtrip (payload rest : Bytes) (id : Nat) (h1 : payload ≠ [])
    (h2 : payload.length < 10 ^ HEADER_LENGTH) :
    readFrame (writeFrame payload ++ rest) = some (payload, rest) ∧
    (listenIteration false id (RecvEvent.frame payload)).enqueued = [(id, payload)] := by
  constructor
  · obtain ⟨padded, hpadded, hpadlen, hpint⟩ :
        ∃ padded : Bytes, writeFrame payload ++ rest = padded ++ (payload ++ rest) ∧
          padded.length = HEADER_LENGTH ∧ pyInt? padded = some payload.length := by
      refine ⟨natStr payload.length ++
        List.replicate (HEADER_LENGTH - (natStr payload.length).length) ' ',
        ?_, ?_, pyInt?_natStr _ _⟩
      · simp [writeFrame, List.append_assoc]
      · have hlen : (natStr payload.length).length ≤ HEADER_LENGTH := natStr_length_le h2
        simp only [List.length_append, List.length_replicate]
        omega
    have hne : writeFrame payload ++ rest ≠ [] := by
      rw [hpadded]
      intro hcon
      have hl := congrArg List.length hcon
      simp only [List.length_append, List.length_nil, hpadlen] at hl
      simp [HEADER_LENGTH] at hl
    rw [readFrame_of_ne_nil _ hne, hpadded,
      List.take_append_of_le_length (by omega),
      List.drop_append_of_le_length (by omega),
      ← hpadlen, List.take_length, List.drop_length, hpint]
    simp only [List.nil_append]
    rw [if_pos (by simp)]
    rw [List.take_append_of_le_length le_rfl, List.take_length,
      List.drop_append_of_le_length le_rfl, List.drop_length, List.nil_append]
  · simp only [listenIteration, dispatchMessage, h1]
    by_cases hd : payload = bDISCONNECT <;> simp [hd, h1]

/-- Witness for `frame_roundtrip` at the one-byte payload `b'A'` followed by
three extra bytes on the stream. -/
theorem frame_roundtrip_witness :
    readFrame (writeFrame "A".data ++ "XYZ".data) = some ("A".data, "XYZ".data) ∧
    (listenIteration false 0 (RecvEvent.frame "A".data)).enqueued = [(0, "A".data)] :=
  frame_roundtrip "A".data "XYZ".data 0 (by decide) (by decide)

/-- Claim C1, counterexample at `L = 0`: the frame for the empty payload is
read back correctly as the empty message, but the listener's `if message:`
test (server.py line 213) is false for `b''`, so the empty message is never
enqueued — it is not handed to the consumer, contrary to the claim's
"including the case L = 0". -/
theorem frame_roundtrip_empty_counterexample :
    readFrame (writeFrame []) = some ([], []) ∧
    listenIteration false 0 (RecvEvent.frame []) = ⟨[], false⟩ :=
  ⟨rfl, rfl⟩

/-- Claim C2.  Contrary to the claim, only `ConnectionResetError` makes the
listener enqueue the synthetic `(id, b'DISCONNECT')` entry and terminate
(server.py lines 203-207).  End-of-stream leaves `message` as `None` and the
loop just continues (busy-retrying `recv` forever), and any other exception is
only logged by the generic handler (lines 208-210, marked
`# Please handle errors`) with the loop continuing as well: no synthetic
disconnect is enqueued and the loop does not terminate. -/
theorem listener_eof_reset_other_behaviour :
    listenIteration false 3 RecvEvent.eof = ⟨[], false⟩ ∧
    listenIteration false 3 RecvEvent.otherErr = ⟨[], false⟩ ∧
    listenIteration false 3 RecvEvent.resetErr = ⟨[(3, bDISCONNECT)], true⟩ :=
  ⟨rfl, rfl, rfl⟩

/-- Claim C3.  The two failure branches reply as claimed, but when
verification yields `VALID` the code sets `status = b'SUCCEEDED'` and then
executes `self.clients[id].SetLoggedIn(username)` (server.py line 485) on the
registry tuple `(thread, handler)`, which raises `AttributeError`: no reply is
produced and the session is never marked authenticated. -/
theorem login_valid_crashes_and_failures_reply :
    ProcessRequest [some ⟨true, ⟨false, none⟩⟩] (fun _ _ => LoginState.VALID)
        (fun _ _ => RegisterState.VALID) 0 "LOGIN alice secret".data =
      .error .attributeError ∧
    ProcessRequest [some ⟨true, ⟨false, none⟩⟩] (fun _ _ => LoginState.NO_USERNAME)
        (fun _ _ => RegisterState.VALID) 0 "LOGIN alice secret".data =
      .ok ([some ⟨true, ⟨false, none⟩⟩], "FAILED USERNAME NOT FOUND".data) ∧
    ProcessRequest [some ⟨true, ⟨false, none⟩⟩] (fun _ _ => LoginState.WRONG_PASSWORD)
        (fun _ _ => RegisterState.VALID) 0 "LOGIN alice secret".data =
      .ok ([some ⟨true, ⟨false, none⟩⟩], "FAILED WRONG PASSWORD".data) :=
  ⟨rfl, rfl, rfl⟩

/-- Claim C4.  A `WEATHER` request on an unauthenticated session does not
reply `FAILED NOT LOGGED IN`: the guard `if self.clients[id].logged_in:`
(server.py line 503) reads `logged_in` off the registry tuple
`(thread, handler)` and raises `AttributeError` before the test is evaluated,
so no reply is produced and the exception propagates into (and kills) the
processing thread. -/
theorem weather_unauthenticated_crashes :
    ProcessRequest [some ⟨true, ⟨false, none⟩⟩] (fun _ _ => LoginState.VALID)
        (fun _ _ => RegisterState.VALID) 0 "WEATHER ALL".data =
      .error .attributeError :=
  rfl

/-- Claim C5.  Even on a session whose handler is marked authenticated,
`WEATHER ALL <date>` never reaches the date-parsing and fetching code: line
503 raises `AttributeError` on the registry tuple first (and even without that
slip, line 504 compares the bytes `cmd` against the *str* literal `'WEATHER'`,
which is always false in Python, so the reply would be `INVALID`). -/
theorem weather_all_authenticated_crashes :
    ProcessRequest [some ⟨true, ⟨true, some "alice".data⟩⟩] (fun _ _ => LoginState.VALID)
        (fun _ _ => RegisterState.VALID) 0 "WEATHER ALL 2024/01/01".data =
      .error .attributeError :=
  rfl

/-- Claim C6.  Processing a `DISCONNECT` queue entry for a live slot joins
that session's listener thread (modelled by the thread becoming not-alive in
`ProcessRequest`), after which `ProcessRequestQueue` sees a dead handler,
clears the slot to `(None, None)` and sends no reply; the freed index is then
found again by the acceptor's slot scan, so it is reusable by a new
connection. -/
theorem disconnect_frees_slot (clients : List Slot)
    (verify : Option Bytes → Option Bytes → LoginState)
    (register : Option Bytes → Option Bytes → RegisterState)
    (id : Nat) (pair : ClientPair)
    (h : clients[id]? = some (some pair)) :
    processQueueStep clients verify register id bDISCONNECT =
      .ok (clients.set id none, []) ∧
    ∃ i clients2, acceptorStep (clients.set id none) AcceptResult.conn =
      AcceptorOutcome.registered clients2 i := by
  have hid : id < clients.length := by
    rcases List.getElem?_eq_some.mp h with ⟨h', _⟩
    exact h'
  constructor
  · unfold processQueueStep ProcessRequest
    rw [if_pos rfl, h]
    have hset : (clients.set id (some { pair with threadAlive := false }))[id]? =
        some (some { pair with threadAlive := false }) :=
      List.getElem?_set_self hid
    simp only [hset]
    simp [List.set_set, assembleReply]
  · have h0 : (clients.set id none)[id]? = some none := List.getElem?_set_self hid
    have hmem : (none : Slot) ∈ clients.set id none := by
      rcases List.getElem?_eq_some.mp h0 with ⟨hlt, hEq⟩
      have hm := List.getElem_mem hlt
      rwa [hEq] at hm
    have hcount : (clients.set id none).count none ≠ 0 := by
      have := List.count_pos_iff.mpr hmem
      omega
    obtain ⟨i, hi⟩ := findFreeSlot_set_none clients id hid
    refine ⟨i, (clients.set id none).set i (some ⟨true, ⟨false, none⟩⟩), ?_⟩
    unfold acceptorStep
    rw [if_neg hcount, hi]

/-- Witness for `disconnect_frees_slot` on a one-slot registry holding a live
session. -/
theorem disconnect_frees_slot_witness :
    processQueueStep [some ⟨true, ⟨false, none⟩⟩] (fun _ _ => LoginState.VALID)
        (fun _ _ => RegisterState.VALID) 0 bDISCONNECT =
      .ok ([some ⟨true, ⟨false, none⟩⟩].set 0 none, []) ∧
    ∃ i clients2,
      acceptorStep ([some ⟨true, ⟨false, none⟩⟩].set 0 none) AcceptResult.conn =
        AcceptorOutcome.registered clients2 i :=
  disconnect_frees_slot [some ⟨true, ⟨false, none⟩⟩] (fun _ _ => LoginState.VALID)
    (fun _ _ => RegisterState.VALID) 0 ⟨true, ⟨false, none⟩⟩ rfl

/-- Claim C7, corrected form.  After `End` returns, the acceptor thread, the
processor thread and every session's listener thread have terminated, but the
Client Registry is not emptied: `End` never clears a slot, so each slot's
occupancy is exactly what it was before the call (slots still hold the
terminated sessions' `(thread, handler)` tuples). -/
theorem end_shuts_down_tasks (s : ServerProgramState) :
    (End s).connectionThreadAlive = false ∧
    (End s).processThreadAlive = false ∧
    ((End s).clients.all fun slot => slot.all fun p => !p.threadAlive) = true ∧
    (End s).clients.map Option.isSome = s.clients.map Option.isSome := by
  refine ⟨rfl, rfl, ?_, ?_⟩
  · simp only [End, List.all_eq_true]
    intro slot hslot
    rw [List.mem_map] at hslot
    obtain ⟨slot0, _, rfl⟩ := hslot
    cases slot0 <;> simp [Option.all]
  · simp only [End, List.map_map]
    apply List.map_congr_left
    intro slot _
    cases slot <;> simp

/-- Claim C7, counterexample: a server with one connected session.  After
`End` returns, the registry still holds the session's tuple — not every slot
is empty, contrary to the claim. -/
theorem end_keeps_slot_occupied :
    ((End ⟨[some ⟨true, ⟨false, none⟩⟩], false, true, true, true⟩).clients.all
      fun slot => slot.isNone) = false :=
  rfl

/-- Claim C8, corrected form.  When every registry slot is occupied, the
acceptor's loop condition `while self.clients.count((None, None)) > 0` is
false, so the loop (and thread) terminates before `accept()` is ever called:
a pending connection is neither accepted nor explicitly rejected/closed, and
the loop does not continue. -/
theorem acceptor_exits_when_full (clients : List Slot) (acc : AcceptResult)
    (h : clients.count none = 0) :
    acceptorStep clients acc = AcceptorOutcome.exitBeforeAccept := by
  unfold acceptorStep
  rw [if_pos h]

/-- Witness for `acceptor_exits_when_full` on a fully occupied two-slot
registry with a connection pending. -/
theorem acceptor_exits_when_full_witness :
    acceptorStep [some ⟨true, ⟨false, none⟩⟩, some ⟨true, ⟨false, none⟩⟩]
      AcceptResult.conn = AcceptorOutcome.exitBeforeAccept :=
  acceptor_exits_when_full
    [some ⟨true, ⟨false, none⟩⟩, some ⟨true, ⟨false, none⟩⟩] AcceptResult.conn (by decide)

/-- Claim C8, counterexample: a full one-slot registry with a new connection
pending.  The acceptor exits before accepting — the connection is not
"accepted and then rejected/closed" and the loop does not continue, contrary
to the claim. -/
theorem acceptor_full_counterexample :
    acceptorStep [some ⟨true, ⟨false, none⟩⟩] AcceptResult.conn =
      AcceptorOutcome.exitBeforeAccept :=
  rfl

/-- Claim C9.  For every message and every behaviour of the two `send` calls,
`SendMessage` returns a boolean to its caller (every exception of the `try`
body is caught and turned into `False`): the result is `false` unless the body
genuinely completed, and it is `true` exactly when the first send transferred
the full `HEADER_LENGTH` bytes and the second the full payload length. -/
theorem sendMessage_spec (message : Bytes) (s1 s2 : SendOutcome) :
    (SendMessage message s1 s2 = false ∨ sendBody message s1 s2 = Except.ok true) ∧
    (SendMessage message s1 s2 = true ↔
      s1 = SendOutcome.sent HEADER_LENGTH ∧ s2 = SendOutcome.sent message.length) := by
  cases s1 with
  | raises => simp [SendMessage, sendBody]
  | sent n1 =>
    by_cases h1 : n1 = HEADER_LENGTH
    · subst h1
      cases s2 with
      | raises => simp [SendMessage, sendBody]
      | sent n2 =>
        by_cases h2 : n2 = message.length
        · subst h2; simp [SendMessage, sendBody]
        · simp [SendMessage, sendBody, h2]
    · simp [SendMessage, sendBody, h1]

/-- Claim C10.  A request containing no space that is not the literal
`DISCONNECT` makes `SplitOnce` return `(None, None)`, so `if cmd and param:`
fails and `ProcessRequest` replies exactly `INVALID`, whatever the registry
(and hence the session's authentication state) is. -/
theorem single_token_invalid (clients : List Slot)
    (verify : Option Bytes → Option Bytes → LoginState)
    (register : Option Bytes → Option Bytes → RegisterState)
    (id : Nat) (request : Bytes)
    (h1 : ' ' ∉ request) (h2 : request ≠ bDISCONNECT) :
    ProcessRequest clients verify register id request = .ok (clients, bINVALID) := by
  unfold ProcessRequest
  rw [if_neg h2]
  unfold SplitOnce
  rw [splitOnceAux_eq_none request h1]
  rfl

/-- Witness for `single_token_invalid` on the spaceless request `b'PING'`. -/
theorem single_token_invalid_witness :
    ProcessRequest [] (fun _ _ => LoginState.VALID) (fun _ _ => RegisterState.VALID) 0
      "PING".data = .ok ([], bINVALID) :=
  single_token_invalid [] (fun _ _ => LoginState.VALID) (fun _ _ => RegisterState.VALID)
    0 "PING".data (by decide) (by decide)

end WeatherServer
